import Mathlib

/-!
# Verification of the rdesktop TCP/trust layer (`tcp.c`)

A shallow embedding of the transport and trust layer of the rdesktop
client (`src/tcp.c`): the trust-on-first-use (TOFU) certificate store
(`cert_tdb_store` / `cert_tdb_verify` / `check_cert`), the TLS upgrade
(`tcp_tls_connect`), the partial-I/O-tolerant send/receive engine
(`tcp_send` / `tcp_recv`), the hostname-resolution cache (`tcp_connect` /
`tcp_connect_resolve_hostname`) and the connectivity query
(`tcp_is_connected`).

External collaborators (the nettle base64 codec, the djb2 identity hash
from `utils.c`, the blocking yes/no prompt, the resolver and the raw
socket calls) are modelled either as concrete executable functions or as
parameters, as documented on each definition.  The process-wide globals
(`g_network_error`, `g_exit_mainloop`, `g_server_address`,
`g_last_server_name`) are threaded as explicit state.
-/

namespace RdesktopTcp

/-! ## Base64 codec

`tcp.c` calls nettle's `base64_encode_raw`, `base64_decode_init`,
`base64_decode_update` and `base64_decode_final`.  The codec is an
external collaborator, modelled concretely here: standard base64
alphabet, whitespace skipped, `=` padding tolerated, any other
non-alphabet character fails the decode.  `cert_tdb_verify` ignores the
return value of `base64_decode_final` (the incomplete-final-group
check), so leftover bits of an incomplete group are silently dropped,
exactly as in the source. -/

/-- The standard base64 alphabet, as used by nettle. -/
def b64Alphabet : List Char :=
  "ABCDEFGHIJKLMNOPQRSTUVWXYZabcdefghijklmnopqrstuvwxyz0123456789+/".data

/-- The base64 character for a sextet value (`0 ≤ n < 64`). -/
def b64EncChar (n : Nat) : Char := b64Alphabet.getD n 'A'

/-- Decode table: `some v` for an alphabet character, `none` otherwise. -/
def b64Val (c : Char) : Option Nat :=
  let i := b64Alphabet.indexOf c
  if i < 64 then some i else none

/-- Whitespace characters skipped by nettle's base64 decoder. -/
def isB64Space (c : Char) : Bool :=
  c == ' ' || c == '\t' || c == '\n' || c == '\r'

/-- `base64_encode_raw` on a byte list (each element `< 256`): 3 bytes
become 4 characters, with `=` padding for a final 1- or 2-byte group. -/
def base64_encode_list : List Nat → List Char
  | [] => []
  | [a] => [b64EncChar (a / 4), b64EncChar (a % 4 * 16), '=', '=']
  | [a, b] => [b64EncChar (a / 4), b64EncChar (a % 4 * 16 + b / 16),
               b64EncChar (b % 16 * 4), '=']
  | a :: b :: c :: rest =>
      b64EncChar (a / 4) :: b64EncChar (a % 4 * 16 + b / 16) ::
      b64EncChar (b % 16 * 4 + c / 64) :: b64EncChar (c % 64) ::
      base64_encode_list rest

/-- `base64_encode_raw` producing a string, as written into the cache file. -/
def base64_encode_raw (k : List Nat) : String := String.mk (base64_encode_list k)

/-- The sextet stream of a base64 text: whitespace and padding are
skipped, alphabet characters yield their value, anything else fails. -/
def b64Sextets : List Char → Option (List Nat)
  | [] => some []
  | c :: rest =>
    if isB64Space c || c == '=' then b64Sextets rest
    else match b64Val c, b64Sextets rest with
      | some v, some vs => some (v :: vs)
      | _, _ => none

/-- Reassemble 6-bit sextets into 8-bit bytes; leftover bits of an
incomplete final group are dropped (the caller ignores
`base64_decode_final`). -/
def sextetsToBytes : List Nat → List Nat
  | a :: b :: c :: d :: rest =>
      (a * 4 + b / 16) :: (b % 16 * 16 + c / 4) :: (c % 4 * 64 + d) :: sextetsToBytes rest
  | [a, b] => [a * 4 + b / 16]
  | [a, b, c] => [a * 4 + b / 16, b % 16 * 16 + c / 4]
  | _ => []

/-- The decode pipeline of `cert_tdb_verify`: `base64_decode_init` /
`base64_decode_update` / (ignored) `base64_decode_final`.  `none` models
`base64_decode_update` returning 0 (an invalid character). -/
def base64_decode (s : String) : Option (List Nat) :=
  (b64Sextets s.data).map sextetsToBytes

/-! ## Trust store state

The on-disk certificate cache `~/.local/share/rdesktop/certs/` is a set
of files named by a hash of the peer identity.  It is modelled as an
association list from filename hash to file content, where a file's
content is the list of lines as successive `fgets` calls return them
(each line keeps its terminating newline when the file has one). -/

/-- A cache file's content: the sequence of lines `fgets` yields. -/
abbrev TrustFile := List String

/-- The certificate-cache directory: filename-hash ↦ file content. -/
abbrev TrustStore := List (Nat × TrustFile)

/-- Look a file up in the cache directory (`fopen` for reading). -/
def storeLookup : TrustStore → Nat → Option TrustFile
  | [], _ => none
  | (k, f) :: rest, fn => if k = fn then some f else storeLookup rest fn

/-- Remove a file from the cache directory (`unlink`); removing an
absent file is a no-op, as for `unlink` on a missing path. -/
def storeDelete : TrustStore → Nat → TrustStore
  | [], _ => []
  | (k, f) :: rest, fn =>
      if k = fn then storeDelete rest fn else (k, f) :: storeDelete rest fn

/-- Create or overwrite a file in the cache directory
(`fopen(filename, "w+")` rewriting the whole file). -/
def storeSet (s : TrustStore) (fn : Nat) (f : TrustFile) : TrustStore :=
  (fn, f) :: storeDelete s fn

/-- Modelled from the spec: `utils_djb2_hash` lives in `utils.c`, which
is not part of the analysed sources.  The spec describes it as the
stable, deterministic hostname-to-identity hash used for cache
filenames, and the store-layout comment in `tcp.c` names it a djb2 hash
of the host; modelled as the classic djb2 over the identity's bytes,
truncated to 32 bits. -/
def utils_djb2_hash (s : String) : Nat :=
  s.data.foldl (fun h c => (h * 33 + c.toNat) % 2 ^ 32) 5381

/-- `cert_store_cache_filename`: the cache filename is determined by the
hash of the host identity (the `db_name` directory prefix is constant
and elided). -/
def cert_store_cache_filename (host : String) : Nat := utils_djb2_hash host

/-- Result of `cert_tdb_verify`: `GNUTLS_E_SUCCESS`,
`GNUTLS_E_NO_CERTIFICATE_FOUND` or `GNUTLS_E_CERTIFICATE_KEY_MISMATCH`. -/
inductive VerifyResult
  | success
  | noCertFound
  | keyMismatch
deriving DecidableEq, Repr

/-- `cert_tdb_store`: rewrite the record file with two newline-terminated
lines, the decimal expiration timestamp and the base64-encoded public
key.  The C function always returns `GNUTLS_E_SUCCESS`. -/
def cert_tdb_store (store : TrustStore) (host : String) (expiration : Int)
    (pubkey : List Nat) : TrustStore :=
  storeSet store (cert_store_cache_filename host)
    [toString expiration ++ "\n", base64_encode_raw pubkey ++ "\n"]

/-- `cert_tdb_verify`: open the record file (missing → no-certificate-found,
with a no-op `unlink`); read the expiration line and the base64 key line
(either missing → no-certificate-found and the file is unlinked); base64
decode failure → key-mismatch and the file is unlinked; otherwise compare
sizes then bytes against the handshake's public key. -/
def cert_tdb_verify (store : TrustStore) (host : String) (pubkey : List Nat) :
    VerifyResult × TrustStore :=
  let fn := cert_store_cache_filename host
  match storeLookup store fn with
  | none => (.noCertFound, storeDelete store fn)
  | some [] => (.noCertFound, storeDelete store fn)
  | some [_] => (.noCertFound, storeDelete store fn)
  | some (_ :: keyLine :: _) =>
    match base64_decode keyLine with
    | none => (.keyMismatch, storeDelete store fn)
    | some storeKey =>
      if pubkey.length ≠ storeKey.length then (.keyMismatch, store)
      else if pubkey ≠ storeKey then (.keyMismatch, store)
      else (.success, store)

/-! ## Certificate trust check (`check_cert`)

`check_cert` receives the live TLS session; the embedding replaces the
gnutls accessors by explicit inputs: whether `$HOME` is set, the `stat`
outcome on the cache directory, the `rd_certcache_mkdir` outcome (that
helper lives outside `tcp.c`), the certificate type, the peer
certificate list (each certificate carrying its DN string, the public
key gnutls derives from it, and its expiration time) and the answer the
blocking `util_dialog_choice` prompt returns (`none` models a NULL /
no-answer result). -/

/-- Outcome of `stat` on the certificate-cache directory. -/
inductive DirState
  | absent        -- `stat` failed with `ENOENT`
  | isDir         -- exists and is a directory
  | notDir        -- exists but is not a directory
  | statOtherError  -- `stat` failed with an errno other than `ENOENT`
deriving DecidableEq, Repr

/-- `gnutls_certificate_type_get` result: X.509 or anything else. -/
inductive CertType
  | x509
  | other
deriving DecidableEq, Repr

/-- A peer certificate, reduced to the fields `check_cert` reads:
its Distinguished Name, the public key gnutls extracts from it, and
`gnutls_x509_crt_get_expiration_time`. -/
structure Cert where
  dn : String
  pubkey : List Nat
  expiration : Int
deriving DecidableEq, Repr

/-- The observable outcome of one `check_cert` call: its `int` return
value (0 on success, 1 via `bail`), the resulting trust store, and how
many times the blocking prompt was invoked. -/
structure CheckOut where
  result : Nat
  store : TrustStore
  prompts : Nat
deriving DecidableEq, Repr

/-- `strstr(haystack, needle)` followed by skipping the needle: the
suffix of `haystack` after the first occurrence of `needle`. -/
def strstrAfter (needle : List Char) : List Char → Option (List Char)
  | [] => if needle.isEmpty then some [] else none
  | c :: rest =>
    if needle.isPrefixOf (c :: rest) then some ((c :: rest).drop needle.length)
    else strstrAfter needle rest

/-- The CN extraction in `check_cert`: `name = strstr(dn, "CN=") + 3`. -/
def extractCN (dn : String) : Option String :=
  (strstrAfter ("CN=".data) dn.data).map String.mk

/-- `check_cert`, from the cache-directory preamble through the TOFU
state machine.  `answer` is consumed only when the prompt is shown; the
`prompts` field counts prompt invocations.  `gnutls_verify_stored_pubkey`
and `gnutls_store_pubkey` dispatch to the registered `cert_tdb_verify` /
`cert_tdb_store` callbacks with the CN as host and the certificate's
public key; `cert_tdb_store` always succeeds, so the
`rv != GNUTLS_E_SUCCESS` bail after storing is unreachable. -/
def check_cert (home : Bool) (dir : DirState) (mkdirOK : Bool) (ctype : CertType)
    (certs : List Cert) (answer : Option String) (store : TrustStore) : CheckOut :=
  if home = false then ⟨0, store, 0⟩          -- `return False` when HOME is unset
  else if dir = DirState.absent ∧ mkdirOK = false then ⟨1, store, 0⟩
  else if dir = DirState.notDir then ⟨1, store, 0⟩
  else match ctype, certs with
    | CertType.x509, cert :: _ =>
      if cert.dn.data.length = 0 then ⟨1, store, 0⟩
      else match extractCN cert.dn with
        | none => ⟨1, store, 0⟩
        | some name =>
          if name.data.length = 0 then ⟨1, store, 0⟩
          else
            match cert_tdb_verify store name cert.pubkey with
            | (VerifyResult.noCertFound, store1) =>
                ⟨0, cert_tdb_store store1 name cert.expiration cert.pubkey, 0⟩
            | (VerifyResult.keyMismatch, store1) =>
                if answer = some ("no") ∨ answer = none then ⟨1, store1, 1⟩
                else ⟨0, cert_tdb_store store1 name cert.expiration cert.pubkey, 1⟩
            | (VerifyResult.success, store1) => ⟨0, store1, 0⟩
    | _, _ => ⟨0, store, 0⟩

/-! ## TLS upgrade (`tcp_tls_connect`) -/

/-- One `gnutls_handshake` attempt: non-negative, negative non-fatal, or
negative fatal. -/
inductive HsStep
  | ok
  | nonFatal
  | fatal
deriving DecidableEq, Repr

/-- The handshake retry loop `do err = gnutls_handshake(...) while
(err < 0 && !gnutls_error_is_fatal(err))`, driven by the sequence of
attempt outcomes; `none` when the trace is exhausted while the loop
would still retry. -/
def gnutls_handshake_loop : List HsStep → Option Bool
  | [] => none
  | HsStep.ok :: _ => some true
  | HsStep.nonFatal :: rest => gnutls_handshake_loop rest
  | HsStep.fatal :: _ => some false

/-- The caller-visible outcome of `tcp_tls_connect`: `True` returned,
`False` returned via the `fail` label (session deinitialized), or the
whole process terminated by `exit(code)`. -/
inductive TlsConnectOutcome
  | established
  | failed
  | exited (code : Nat)
deriving DecidableEq, Repr

/-- `tcp_tls_connect` from the handshake loop on: a fatal handshake goes
to `fail` (teardown, return `False`); on handshake success the
certificate check runs, and a nonzero `check_cert` result executes
`exit(1)` — not the `fail` path, which is present only as a
commented-out line in the source. -/
def tcp_tls_connect (hs : List HsStep) (home : Bool) (dir : DirState)
    (mkdirOK : Bool) (ctype : CertType) (certs : List Cert)
    (answer : Option String) (store : TrustStore) :
    Option (TlsConnectOutcome × TrustStore) :=
  match gnutls_handshake_loop hs with
  | none => none
  | some false => some (TlsConnectOutcome.failed, store)
  | some true =>
    let out := check_cert home dir mkdirOK ctype certs answer store
    if out.result = 0 then some (TlsConnectOutcome.established, out.store)
    else some (TlsConnectOutcome.exited 1, out.store)

/-! ## I/O engine (`tcp_send` / `tcp_recv`)

The underlying transport (raw socket or TLS record layer) is modelled
as a trace of per-call outcomes.  `bytes n` is a call returning `n ≥ 0`
(the transport delivers at most the number of bytes asked for, hence the
`min` with the remaining length); `wouldBlock` is `-1` with
`EWOULDBLOCK` on the socket and a negative non-fatal return on TLS;
`fatal` is any other error.  The stream-buffer bookkeeping around the
loops moves pointers only and is elided: it does not affect the return
value, the error flag, or how much of the trace is consumed. -/

/-- One underlying transport call's outcome. -/
inductive IoStep
  | bytes (n : Nat)
  | wouldBlock
  | fatal
deriving DecidableEq, Repr

/-- What a `tcp_send` call leaves behind: bytes transmitted, the
`g_network_error` flag, how many times it waited in `tcp_can_send`, and
the unconsumed rest of the transport trace. -/
structure SendResult where
  total : Nat
  networkError : Bool
  waits : Nat
  rest : List IoStep
deriving DecidableEq, Repr

/-- The interval passed to `tcp_can_send` by `tcp_send` on every
would-block wait, in milliseconds. -/
def tcp_can_send_wait_millis : Nat := 100

/-- The `while (total < length)` loop of `tcp_send`.  On TLS, a
non-positive non-fatal return waits in `tcp_can_send` and retries with
`sent = 0`; on the raw socket, `send` returning 0 falls into the fatal
branch (only `-1` with `EWOULDBLOCK` retries).  A fatal error sets the
network-error flag and returns with the bytes sent so far.  `none` when
the trace is exhausted while the loop still needs the transport. -/
def tcp_send_loop (ssl : Bool) (length : Nat) :
    List IoStep → Nat → Nat → Option SendResult
  | [], total, waits =>
    if length ≤ total then some ⟨total, false, waits, []⟩ else none
  | step :: rest, total, waits =>
    if length ≤ total then some ⟨total, false, waits, step :: rest⟩
    else
      if ssl then
        match step with
        | IoStep.bytes 0 => tcp_send_loop ssl length rest total (waits + 1)
        | IoStep.bytes n =>
            tcp_send_loop ssl length rest (total + min n (length - total)) waits
        | IoStep.wouldBlock => tcp_send_loop ssl length rest total (waits + 1)
        | IoStep.fatal => some ⟨total, true, waits, rest⟩
      else
        match step with
        | IoStep.bytes 0 => some ⟨total, true, waits, rest⟩
        | IoStep.bytes n =>
            tcp_send_loop ssl length rest (total + min n (length - total)) waits
        | IoStep.wouldBlock => tcp_send_loop ssl length rest total (waits + 1)
        | IoStep.fatal => some ⟨total, true, waits, rest⟩

/-- `tcp_send`: the entry check `if (g_network_error == True) return;`
returns at once — nothing sent, no transport call, flag left set —
otherwise the send loop runs. -/
def tcp_send (networkError ssl : Bool) (steps : List IoStep) (length : Nat) :
    Option SendResult :=
  if networkError then some ⟨0, true, 0, steps⟩
  else tcp_send_loop ssl length steps 0 0

/-- What a `tcp_recv` call leaves behind: whether it returned a stream
(`ok`) or `NULL`, the bytes accumulated, the `g_network_error` flag, and
the unconsumed transport trace. -/
structure RecvResult where
  ok : Bool
  received : Nat
  networkError : Bool
  rest : List IoStep
deriving DecidableEq, Repr

/-- The `while (length > 0)` loop of `tcp_recv`.  Each iteration first
yields to the UI loop (when `runUi` and no TLS data is pending) and
aborts with `NULL` if `g_exit_mainloop` is set; then issues one
transport read.  On the raw socket a zero-byte read is the
peer-disconnect case: `NULL` is returned and — as in the source — the
network-error flag is NOT set; a fatal error sets the flag; would-block
retries with `rcvd = 0`.  On TLS a fatal negative sets the flag, any
other non-positive return retries.  `none` when the trace is exhausted
while the loop still needs the transport. -/
def tcp_recv_loop (ssl pending runUi exitMainloop : Bool) :
    List IoStep → Nat → Nat → Option RecvResult
  | [], received, length =>
    if length = 0 then some ⟨true, received, false, []⟩
    else if ((!ssl || !pending) && runUi) && exitMainloop then
      some ⟨false, received, false, []⟩
    else none
  | step :: rest, received, length =>
    if length = 0 then some ⟨true, received, false, step :: rest⟩
    else if ((!ssl || !pending) && runUi) && exitMainloop then
      some ⟨false, received, false, step :: rest⟩
    else
        if ssl then
          match step with
          | IoStep.bytes n =>
              tcp_recv_loop ssl pending runUi exitMainloop rest
                (received + min n length) (length - min n length)
          | IoStep.wouldBlock =>
              tcp_recv_loop ssl pending runUi exitMainloop rest received length
          | IoStep.fatal => some ⟨false, received, true, rest⟩
        else
          match step with
          | IoStep.bytes 0 => some ⟨false, received, false, rest⟩
          | IoStep.bytes n =>
              tcp_recv_loop ssl pending runUi exitMainloop rest
                (received + min n length) (length - min n length)
          | IoStep.wouldBlock =>
              tcp_recv_loop ssl pending runUi exitMainloop rest received length
          | IoStep.fatal => some ⟨false, received, true, rest⟩

/-- `tcp_recv`: the entry check `if (g_network_error == True) return
NULL;` fails at once with no transport call and the flag left set;
otherwise the receive loop runs. -/
def tcp_recv (networkError ssl pending runUi exitMainloop : Bool)
    (steps : List IoStep) (length : Nat) : Option RecvResult :=
  if networkError then some ⟨false, 0, true, steps⟩
  else tcp_recv_loop ssl pending runUi exitMainloop steps 0 length

/-- Modelled from the spec: the explicit reconnect that ends the
fail-fast state.  `tcp.c` only ever sets `g_network_error`; the reset on
a fresh connect is owned by the application main loop (`rdesktop.c`),
which is not among the analysed sources.  Per the spec, "once set, all
I/O entry points become immediate no-ops/failures until a fresh connect
resets it". -/
def reconnect_clears_network_error (_networkError : Bool) : Bool :=
  false

/-! ## Connection manager (`tcp_connect`)

The resolver (`gethostbyname` / `inet_addr`) and the raw `socket` /
`connect` calls are external; they enter as the `resolver` function and
the `socketOK` / `connectOK` outcomes.  The cached-address global
`g_server_address` is `Option (Option Nat)`: `none` is a NULL pointer,
`some none` an allocated record whose address was never successfully
resolved, `some (some a)` a resolved address `a`.  (The embedding
follows the non-IPv6 branch; the resolve-or-reuse decision and the
last-server-name update are shared by both branches.) -/

/-- The globals `g_server_address` and `g_last_server_name`. -/
structure ConnState where
  serverAddress : Option (Option Nat)
  lastServerName : Option String
deriving DecidableEq, Repr

/-- `tcp_connect_resolve_hostname`: resolve again iff there is no cached
address, or no recorded last server name, or the requested name differs
from the recorded one. -/
def tcp_connect_resolve_hostname (st : ConnState) (server : String) : Bool :=
  st.serverAddress.isNone ||
    match st.lastServerName with
    | none => true
    | some n => n != server

/-- The observable outcome of one `tcp_connect` call: its return value,
the resulting globals, and whether name resolution was performed. -/
structure ConnectOut where
  ok : Bool
  state : ConnState
  didResolve : Bool
deriving DecidableEq, Repr

/-- `tcp_connect`: when resolution is needed the old cached address is
freed and replaced before resolving (so a failed resolution leaves an
allocated-but-unresolved record and returns `False`); then the socket is
created and connected (each failure returns `False`); only after a fully
successful connect is `g_last_server_name` updated to the requested
server.  Socket-option tuning and buffer allocation touch neither the
address cache nor the name record and are elided. -/
def tcp_connect (resolver : String → Option Nat) (socketOK connectOK : Bool)
    (st : ConnState) (server : String) : ConnectOut :=
  if tcp_connect_resolve_hostname st server then
    match resolver server with
    | none => ⟨false, ⟨some none, st.lastServerName⟩, true⟩
    | some a =>
      if socketOK = false then ⟨false, ⟨some (some a), st.lastServerName⟩, true⟩
      else if connectOK = false then ⟨false, ⟨some (some a), st.lastServerName⟩, true⟩
      else ⟨true, ⟨some (some a), some server⟩, true⟩
  else
    if socketOK = false then ⟨false, st, false⟩
    else if connectOK = false then ⟨false, st, false⟩
    else ⟨true, ⟨st.serverAddress, some server⟩, false⟩

/-! ## Connectivity query (`tcp_is_connected`) -/

/-- Whether the `getpeername` query on the socket succeeded (returned 0),
i.e. the socket has a connected peer. -/
def peer_query_succeeded (r : Int) : Bool := r = 0

/-- `tcp_is_connected`: `if (getpeername(...)) return True; return False;`
— `True` exactly when `getpeername` returned nonzero. -/
def tcp_is_connected (getpeername_ret : Int) : Bool :=
  if getpeername_ret ≠ 0 then true else false

/-! ## Lemmas: base64 round trip -/

/-- Encoding facts for every sextet value: its character decodes back to
it, is not whitespace and is not the padding character. -/
theorem b64_enc_facts : ∀ v < 64, b64Val (b64EncChar v) = some v ∧
    isB64Space (b64EncChar v) = false ∧ (b64EncChar v == '=') = false := by
  decide

/-- A sextet character contributes its value to the decoded stream. -/
theorem b64Sextets_enc_cons (v : Nat) (h : v < 64) (cs : List Char) :
    b64Sextets (b64EncChar v :: cs) = (b64Sextets cs).map (fun vs => v :: vs) := by
  have hf := b64_enc_facts v h
  rw [b64Sextets, hf.1, hf.2.1, hf.2.2]
  simp only [Bool.or_false, Bool.false_eq_true, if_false]
  cases b64Sextets cs <;> simp

/-- Padding characters are skipped by the decoder. -/
theorem b64Sextets_pad_cons (cs : List Char) :
    b64Sextets ('=' :: cs) = b64Sextets cs := by
  rw [b64Sextets]
  simp [isB64Space]

/-- The newline terminating the cache line is skipped by the decoder. -/
theorem b64Sextets_newline_cons (cs : List Char) :
    b64Sextets ('\n' :: cs) = b64Sextets cs := by
  rw [b64Sextets]
  simp [isB64Space]

/-- Core round trip: decoding the characters of an encoded byte list
(followed by the terminating newline) recovers the bytes. -/
theorem b64_roundtrip_core (k : List Nat) (h : ∀ b ∈ k, b < 256) :
    ∃ s, b64Sextets (base64_encode_list k ++ ['\n']) = some s ∧
      sextetsToBytes s = k := by
  induction k using base64_encode_list.induct with
  | case1 =>
    exact ⟨[], rfl, rfl⟩
  | case2 a =>
    have ha : a < 256 := h a (by simp)
    refine ⟨[a / 4, a % 4 * 16], ?_, ?_⟩
    · rw [base64_encode_list]
      simp only [List.cons_append, List.nil_append]
      rw [b64Sextets_enc_cons _ (by omega), b64Sextets_enc_cons _ (by omega),
        b64Sextets_pad_cons, b64Sextets_pad_cons, b64Sextets_newline_cons]
      simp [b64Sextets]
    · simp only [sextetsToBytes, List.cons.injEq, and_true]
      omega
  | case3 a b =>
    have ha : a < 256 := h a (by simp)
    have hb : b < 256 := h b (by simp)
    refine ⟨[a / 4, a % 4 * 16 + b / 16, b % 16 * 4], ?_, ?_⟩
    · rw [base64_encode_list]
      simp only [List.cons_append, List.nil_append]
      rw [b64Sextets_enc_cons _ (by omega), b64Sextets_enc_cons _ (by omega),
        b64Sextets_enc_cons _ (by omega), b64Sextets_pad_cons,
        b64Sextets_newline_cons]
      simp [b64Sextets]
    · simp only [sextetsToBytes, List.cons.injEq, and_true]
      omega
  | case4 a b c rest ih =>
    have ha : a < 256 := h a (by simp)
    have hb : b < 256 := h b (by simp)
    have hc : c < 256 := h c (by simp)
    obtain ⟨s, hs, hbytes⟩ := ih (fun x hx => h x (by simp [hx]))
    refine ⟨a / 4 :: (a % 4 * 16 + b / 16) :: (b % 16 * 4 + c / 64) :: c % 64 :: s,
      ?_, ?_⟩
    · rw [base64_encode_list]
      simp only [List.cons_append]
      rw [b64Sextets_enc_cons _ (by omega), b64Sextets_enc_cons _ (by omega),
        b64Sextets_enc_cons _ (by omega), b64Sextets_enc_cons _ (by omega), hs]
      rfl
    · simp only [sextetsToBytes, hbytes]
      refine List.cons_eq_cons.mpr ⟨by omega, List.cons_eq_cons.mpr ⟨by omega,
        List.cons_eq_cons.mpr ⟨by omega, rfl⟩⟩⟩

/-- Round trip through the cache-file format: the base64 line written by
`cert_tdb_store` (including its trailing newline, as `fgets` returns it)
decodes back to the stored key bytes. -/
theorem base64_roundtrip (k : List Nat) (h : ∀ b ∈ k, b < 256) :
    base64_decode (base64_encode_raw k ++ "\n") = some k := by
  obtain ⟨s, hs, hb⟩ := b64_roundtrip_core k h
  have hdata : (base64_encode_raw k ++ "\n").data = base64_encode_list k ++ ['\n'] := by
    simp [base64_encode_raw, String.data_append]
  rw [base64_decode, hdata, hs]
  simp [hb]

/-! ## Lemmas: trust store and `check_cert` -/

/-- A freshly written record is found by the next lookup. -/
theorem storeLookup_storeSet (s : TrustStore) (fn : Nat) (f : TrustFile) :
    storeLookup (storeSet s fn f) fn = some f := by
  simp [storeSet, storeLookup]

/-- After `unlink`, the file is gone. -/
theorem storeLookup_storeDelete (s : TrustStore) (fn : Nat) :
    storeLookup (storeDelete s fn) fn = none := by
  induction s with
  | nil => rfl
  | cons kv rest ih =>
    obtain ⟨k, f⟩ := kv
    by_cases h : k = fn <;> simp [storeDelete, storeLookup, h, ih]

/-- Verifying the key that was just stored for the same identity
succeeds and leaves the store untouched. -/
theorem cert_tdb_verify_after_store (store : TrustStore) (host : String)
    (exp : Int) (k : List Nat) (h : ∀ b ∈ k, b < 256) :
    cert_tdb_verify (cert_tdb_store store host exp k) host k =
      (VerifyResult.success, cert_tdb_store store host exp k) := by
  simp only [cert_tdb_verify, cert_tdb_store, storeLookup_storeSet,
    base64_roundtrip k h]
  simp

/-- Verifying a different key than the one stored for the identity
reports a key mismatch and leaves the record untouched. -/
theorem cert_tdb_verify_after_store_ne (store : TrustStore) (host : String)
    (exp : Int) (k k2 : List Nat) (h : ∀ b ∈ k, b < 256) (hne : k2 ≠ k) :
    cert_tdb_verify (cert_tdb_store store host exp k) host k2 =
      (VerifyResult.keyMismatch, cert_tdb_store store host exp k) := by
  simp only [cert_tdb_verify, cert_tdb_store, storeLookup_storeSet,
    base64_roundtrip k h]
  by_cases hlen : k2.length = k.length <;> simp [hlen, hne]

/-- The CN extraction on a DN that starts with `CN=` yields the rest. -/
theorem extractCN_on_cn (X : String) : extractCN ("CN=" ++ X) = some X := by
  have hdata : ("CN=" ++ X).data = 'C' :: 'N' :: '=' :: X.data := by
    simp [String.data_append]
  simp only [extractCN, hdata]
  rw [strstrAfter]
  simp [List.isPrefixOf]

/-- When a mismatch is detected by comparison against a successfully
parsed record (both `fgets` lines present, base64 decode succeeded), the
verify step leaves the store completely unchanged, whatever the compare
outcome. -/
theorem cert_tdb_verify_parsed_preserves (store : TrustStore) (host : String)
    (key : List Nat) (l1 l2 : String) (rest : TrustFile) (dk : List Nat)
    (hlook : storeLookup store (cert_store_cache_filename host) =
      some (l1 :: l2 :: rest))
    (hdec : base64_decode l2 = some dk) :
    (cert_tdb_verify store host key).2 = store := by
  simp only [cert_tdb_verify, hlook, hdec]
  split_ifs <;> rfl

/-- Reduction of `check_cert` along the X.509 single-certificate path
with a well-formed environment (HOME set, cache directory present) and a
DN of the form `CN=<identity>`: the outcome is decided by the TOFU state
machine on `cert_tdb_verify`'s result. -/
theorem check_cert_x509_reduce (X : String) (hX : X ≠ "") (key : List Nat)
    (exp : Int) (answer : Option String) (store : TrustStore) :
    check_cert true DirState.isDir true CertType.x509 [⟨"CN=" ++ X, key, exp⟩]
        answer store =
      match cert_tdb_verify store X key with
      | (VerifyResult.noCertFound, store1) =>
          ⟨0, cert_tdb_store store1 X exp key, 0⟩
      | (VerifyResult.keyMismatch, store1) =>
          if answer = some ("no") ∨ answer = none then ⟨1, store1, 1⟩
          else ⟨0, cert_tdb_store store1 X exp key, 1⟩
      | (VerifyResult.success, store1) => ⟨0, store1, 0⟩ := by
  have hdn : ("CN=" ++ X).data.length ≠ 0 := by
    simp [String.data_append]
  have hXdata : X.data.length ≠ 0 := by
    intro hlen
    exact hX (String.ext (List.length_eq_zero.mp hlen))
  simp only [check_cert, extractCN_on_cn X, hdn, hXdata]
  simp

/-! ## Claim theorems -/

/-- C1.  TOFU round trip, over `check_cert` with a well-formed
environment and an X.509 certificate whose DN carries `CN=X`:
(1) after a record for identity `X` with key `K` is stored, a verify of
`X` with `K` succeeds (result 0), changes nothing and shows no prompt;
(2) a verify of `X` with a different key `K2` is a mismatch, invokes the
prompt exactly once, and answering "yes" overwrites the record with
`K2`; (3) a subsequent verify of `X` with `K2` then succeeds with no
prompt; (4) answering "no" (here for the same `K2` mismatch) aborts with
result 1, shows the prompt exactly once, and the record on disk still
holds the original key `K`. -/
theorem tofu_round_trip (X : String) (K K2 : List Nat) (exp exp2 : Int)
    (store0 : TrustStore) (answer answer2 : Option String)
    (hX : X ≠ "") (hK : ∀ b ∈ K, b < 256) (hK2 : ∀ b ∈ K2, b < 256)
    (hne : K2 ≠ K) :
    check_cert true DirState.isDir true CertType.x509 [⟨"CN=" ++ X, K, exp⟩]
        answer (cert_tdb_store store0 X exp K) =
      ⟨0, cert_tdb_store store0 X exp K, 0⟩ ∧
    check_cert true DirState.isDir true CertType.x509 [⟨"CN=" ++ X, K2, exp2⟩]
        (some ("yes")) (cert_tdb_store store0 X exp K) =
      ⟨0, cert_tdb_store (cert_tdb_store store0 X exp K) X exp2 K2, 1⟩ ∧
    check_cert true DirState.isDir true CertType.x509 [⟨"CN=" ++ X, K2, exp2⟩]
        answer2 (cert_tdb_store (cert_tdb_store store0 X exp K) X exp2 K2) =
      ⟨0, cert_tdb_store (cert_tdb_store store0 X exp K) X exp2 K2, 0⟩ ∧
    check_cert true DirState.isDir true CertType.x509 [⟨"CN=" ++ X, K2, exp2⟩]
        (some ("no")) (cert_tdb_store store0 X exp K) =
      ⟨1, cert_tdb_store store0 X exp K, 1⟩ ∧
    storeLookup (cert_tdb_store store0 X exp K) (cert_store_cache_filename X) =
      some [toString exp ++ "\n", base64_encode_raw K ++ "\n"] := by
  refine ⟨?_, ?_, ?_, ?_, ?_⟩
  · rw [check_cert_x509_reduce X hX, cert_tdb_verify_after_store store0 X exp K hK]
  · rw [check_cert_x509_reduce X hX,
      cert_tdb_verify_after_store_ne store0 X exp K K2 hK hne]
    simp
  · rw [check_cert_x509_reduce X hX,
      cert_tdb_verify_after_store (cert_tdb_store store0 X exp K) X exp2 K2 hK2]
  · rw [check_cert_x509_reduce X hX,
      cert_tdb_verify_after_store_ne store0 X exp K K2 hK hne]
    simp
  · exact storeLookup_storeSet store0 (cert_store_cache_filename X) _

/-- Witness for C1 at identity "h", key `[1]`, changed key `[2]`. -/
theorem tofu_round_trip_witness :
    check_cert true DirState.isDir true CertType.x509 [⟨"CN=" ++ "h", [1], 0⟩]
        none (cert_tdb_store [] ("h") 0 [1]) =
      ⟨0, cert_tdb_store [] ("h") 0 [1], 0⟩ ∧
    check_cert true DirState.isDir true CertType.x509 [⟨"CN=" ++ "h", [2], 5⟩]
        (some ("no")) (cert_tdb_store [] ("h") 0 [1]) =
      ⟨1, cert_tdb_store [] ("h") 0 [1], 1⟩ :=
  have h := tofu_round_trip ("h") [1] [2] 0 5 [] none none (by decide)
    (by decide) (by decide) (by decide)
  ⟨h.1, h.2.2.2.1⟩

/-- C8.  In the mismatch-prompt protocol: when the verify step reports a
key mismatch, an answer of "no" — and equally the absence of an answer —
makes `check_cert` bail (result 1) after exactly one prompt, leaving the
store exactly as the verify step left it; and whenever the record parsed
successfully (both lines present and the key line base64-decodes), the
verify step left the store unchanged, so nothing at all changed. -/
theorem mismatch_prompt_no_aborts (X : String) (key : List Nat) (exp : Int)
    (store : TrustStore) (answer : Option String) (hX : X ≠ "")
    (hmis : (cert_tdb_verify store X key).1 = VerifyResult.keyMismatch)
    (hans : answer = some ("no") ∨ answer = none) :
    check_cert true DirState.isDir true CertType.x509 [⟨"CN=" ++ X, key, exp⟩]
        answer store = ⟨1, (cert_tdb_verify store X key).2, 1⟩ ∧
    (∀ l1 l2 rest dk,
      storeLookup store (cert_store_cache_filename X) = some (l1 :: l2 :: rest) →
      base64_decode l2 = some dk →
      (cert_tdb_verify store X key).2 = store) := by
  constructor
  · rw [check_cert_x509_reduce X hX]
    rcases hv : cert_tdb_verify store X key with ⟨r, s1⟩
    rw [hv] at hmis
    simp only at hmis
    subst hmis
    simp [if_pos hans]
  · intro l1 l2 rest dk hlook hdec
    exact cert_tdb_verify_parsed_preserves store X key l1 l2 rest dk hlook hdec

/-- Witness for C8: a stored key `[1]` for "h", a mismatching handshake
key `[2]`, answer "no". -/
theorem mismatch_prompt_no_aborts_witness :
    check_cert true DirState.isDir true CertType.x509 [⟨"CN=" ++ "h", [2], 5⟩]
        (some ("no")) (cert_tdb_store [] ("h") 0 [1]) =
      ⟨1, (cert_tdb_verify (cert_tdb_store [] ("h") 0 [1]) ("h") [2]).2, 1⟩ :=
  (mismatch_prompt_no_aborts ("h") [2] 5 (cert_tdb_store [] ("h") 0 [1])
    (some ("no")) (by decide) (by decide) (Or.inl rfl)).1

/-- C2 counterexample.  A record whose key line fails base64 decoding
(`"*"` is not in the alphabet) does NOT verify like a missing file: the
missing file gives `GNUTLS_E_NO_CERTIFICATE_FOUND` (state Unknown, which
`check_cert` answers by storing the new key), while the corrupt-key-line
file gives `GNUTLS_E_CERTIFICATE_KEY_MISMATCH` (which `check_cert`
answers with the mismatch prompt).  The corrupt file IS deleted. -/
theorem malformed_record_base64_counterexample :
    cert_tdb_verify [(cert_store_cache_filename ("h"), ["0\n", "*\n"])] ("h") [1] =
      (VerifyResult.keyMismatch, []) ∧
    cert_tdb_verify [] ("h") [1] = (VerifyResult.noCertFound, []) ∧
    VerifyResult.keyMismatch ≠ VerifyResult.noCertFound := by
  refine ⟨?_, by decide, by decide⟩
  decide

/-- C2 amended.  A record file that is empty or lacks the key line
verifies exactly like a missing file: `noCertFound` (Unknown) and the
file is unlinked.  A key line that fails base64 decoding also unlinks
the file, but the result is `keyMismatch`, not `noCertFound`.  In every
one of these cases the file is gone afterwards. -/
theorem malformed_record_amended (store : TrustStore) (host : String)
    (key : List Nat) :
    (storeLookup store (cert_store_cache_filename host) = none →
      cert_tdb_verify store host key =
        (VerifyResult.noCertFound, storeDelete store (cert_store_cache_filename host))) ∧
    (storeLookup store (cert_store_cache_filename host) = some [] →
      cert_tdb_verify store host key =
        (VerifyResult.noCertFound, storeDelete store (cert_store_cache_filename host))) ∧
    (∀ l, storeLookup store (cert_store_cache_filename host) = some [l] →
      cert_tdb_verify store host key =
        (VerifyResult.noCertFound, storeDelete store (cert_store_cache_filename host))) ∧
    (∀ l1 l2 rest, storeLookup store (cert_store_cache_filename host) =
        some (l1 :: l2 :: rest) → base64_decode l2 = none →
      cert_tdb_verify store host key =
        (VerifyResult.keyMismatch, storeDelete store (cert_store_cache_filename host))) ∧
    storeLookup (storeDelete store (cert_store_cache_filename host))
      (cert_store_cache_filename host) = none := by
  refine ⟨?_, ?_, ?_, ?_, storeLookup_storeDelete store _⟩
  · intro hlook
    simp only [cert_tdb_verify, hlook]
  · intro hlook
    simp only [cert_tdb_verify, hlook]
  · intro l hlook
    simp only [cert_tdb_verify, hlook]
  · intro l1 l2 rest hlook hdec
    simp only [cert_tdb_verify, hlook, hdec]

/-- Witness for C2 (amended) at a record truncated after the first line. -/
theorem malformed_record_amended_witness :
    cert_tdb_verify [(cert_store_cache_filename ("h"), ["1700000000\n"])] ("h") [1] =
      (VerifyResult.noCertFound, []) :=
  (malformed_record_amended
      [(cert_store_cache_filename ("h"), ["1700000000\n"])] ("h") [1]).2.2.1
    "1700000000\n" (by decide)

/-- C9 counterexample.  A session whose certificate type is not X.509
does NOT always pass the trust gate: if the cache path exists but is not
a directory, `check_cert` bails with 1 before ever looking at the
certificate type. -/
theorem non_x509_preamble_counterexample :
    check_cert true DirState.notDir true CertType.other [] none [] =
      ⟨1, [], 0⟩ ∧ (1 : Nat) ≠ 0 := by
  decide

/-- C9 amended.  Provided the cache-directory preamble does not bail
(HOME unset also returns success immediately; otherwise the cache path
must not be a non-directory, and if absent its creation must succeed),
a session whose certificate type is not X.509, or whose peer presents an
empty certificate list, passes the trust gate with result 0, no prompt,
and the trust store untouched — no key comparison happens at all. -/
theorem non_x509_skips_trust_store (home : Bool) (dir : DirState)
    (mkdirOK : Bool) (ctype : CertType) (certs : List Cert)
    (answer : Option String) (store : TrustStore)
    (hskip : ctype = CertType.other ∨ certs = [])
    (hpre : home = false ∨
      (dir ≠ DirState.notDir ∧ (dir = DirState.absent → mkdirOK = true))) :
    check_cert home dir mkdirOK ctype certs answer store = ⟨0, store, 0⟩ := by
  rcases hpre with hpre | ⟨hdir, hmk⟩
  · simp [check_cert, hpre]
  · cases home with
    | false => simp [check_cert]
    | true =>
      have h1 : ¬(dir = DirState.absent ∧ mkdirOK = false) := by
        rintro ⟨h, h2⟩
        rw [hmk h] at h2
        simp at h2
      rcases hskip with hskip | hskip
      · subst hskip
        cases certs <;> simp [check_cert, h1, hdir]
      · subst hskip
        cases ctype <;> simp [check_cert, h1, hdir]

/-- Witness for C9 (amended): empty certificate list, directory present. -/
theorem non_x509_skips_trust_store_witness :
    check_cert true DirState.isDir true CertType.x509 [] none [] =
      ⟨0, [], 0⟩ :=
  non_x509_skips_trust_store true DirState.isDir true CertType.x509 [] none []
    (Or.inr rfl) (Or.inr ⟨by decide, fun h => by cases h⟩)

/-- C3 counterexample.  With a successful handshake and a failing
certificate check (cache path exists but is not a directory),
`tcp_tls_connect` does not return Failed to its caller: it terminates
the whole process with `exit(1)`. -/
theorem cert_check_failure_exits_counterexample :
    tcp_tls_connect [HsStep.ok] true DirState.notDir true CertType.other []
        none [] = some (TlsConnectOutcome.exited 1, []) ∧
    TlsConnectOutcome.exited 1 ≠ TlsConnectOutcome.failed := by
  decide

/-- C3 amended.  After a successful handshake, a failing certificate
check terminates the process via `exit(1)` — something strictly stronger
than returning Failed; only a fatal handshake failure makes the upgrade
return Failed (tearing the session down) to its caller. -/
theorem cert_check_failure_exits (hs : List HsStep) (home : Bool)
    (dir : DirState) (mkdirOK : Bool) (ctype : CertType) (certs : List Cert)
    (answer : Option String) (store : TrustStore)
    (hhs : gnutls_handshake_loop hs = some true)
    (hcc : (check_cert home dir mkdirOK ctype certs answer store).result ≠ 0) :
    tcp_tls_connect hs home dir mkdirOK ctype certs answer store =
      some (TlsConnectOutcome.exited 1,
        (check_cert home dir mkdirOK ctype certs answer store).store) ∧
    (∀ hs2, gnutls_handshake_loop hs2 = some false →
      tcp_tls_connect hs2 home dir mkdirOK ctype certs answer store =
        some (TlsConnectOutcome.failed, store)) := by
  constructor
  · simp only [tcp_tls_connect, hhs]
    rw [if_neg hcc]
  · intro hs2 h2
    simp only [tcp_tls_connect, h2]

/-- Witness for C3 (amended) at the counterexample's inputs. -/
theorem cert_check_failure_exits_witness :
    tcp_tls_connect [HsStep.ok] true DirState.notDir true CertType.other []
        none [] = some (TlsConnectOutcome.exited 1,
          (check_cert true DirState.notDir true CertType.other [] none []).store) :=
  (cert_check_failure_exits [HsStep.ok] true DirState.notDir true
    CertType.other [] none [] rfl (by decide)).1

/-- The send loop never reports a clean completion while fewer than
`len` bytes have been transmitted: if it returns with the network-error
flag clear, exactly `len` bytes went out. -/
theorem tcp_send_loop_total (ssl : Bool) (len : Nat) :
    ∀ (steps : List IoStep) (total waits : Nat) (r : SendResult),
      total ≤ len → tcp_send_loop ssl len steps total waits = some r →
      r.networkError = false → r.total = len := by
  intro steps
  induction steps with
  | nil =>
    intro total waits r hle hrun hflag
    simp only [tcp_send_loop] at hrun
    by_cases h : len ≤ total
    · rw [if_pos h] at hrun
      simp only [Option.some.injEq] at hrun
      subst hrun
      simpa using by omega
    · rw [if_neg h] at hrun
      exact absurd hrun (by simp)
  | cons step rest ih =>
    intro total waits r hle hrun hflag
    by_cases h : len ≤ total
    · simp only [tcp_send_loop] at hrun
      rw [if_pos h] at hrun
      simp only [Option.some.injEq] at hrun
      subst hrun
      simpa using by omega
    · rcases step with n | _ | _
      · cases n with
        | zero =>
          simp only [tcp_send_loop] at hrun
          rw [if_neg h] at hrun
          split at hrun
          · exact ih total (waits + 1) r hle hrun hflag
          · simp only [Option.some.injEq] at hrun
            subst hrun
            simp at hflag
        | succ m =>
          simp only [tcp_send_loop] at hrun
          rw [if_neg h] at hrun
          split at hrun
          · exact ih _ _ r (by omega) hrun hflag
          · exact ih _ _ r (by omega) hrun hflag
      · simp only [tcp_send_loop] at hrun
        rw [if_neg h] at hrun
        split at hrun
        · exact ih total (waits + 1) r hle hrun hflag
        · exact ih total (waits + 1) r hle hrun hflag
      · simp only [tcp_send_loop] at hrun
        rw [if_neg h] at hrun
        split at hrun <;>
          · simp only [Option.some.injEq] at hrun
            subst hrun
            simp at hflag

/-- A would-block step consumes zero bytes: the loop continues with the
same total, having waited once more in `tcp_can_send`. -/
theorem tcp_send_loop_wouldBlock (ssl : Bool) (len : Nat) (rest : List IoStep)
    (total waits : Nat) (h : total < len) :
    tcp_send_loop ssl len (IoStep.wouldBlock :: rest) total waits =
      tcp_send_loop ssl len rest total (waits + 1) := by
  simp only [tcp_send_loop]
  rw [if_neg (by omega : ¬ len ≤ total)]
  split <;> rfl

/-- A trace of `k` plaintext writes, each accepting `c > 0` bytes (the
transport honours at most the remaining length per call), completes a
send of any `len ≤ k * c` bytes cleanly and without waiting. -/
theorem tcp_send_loop_replicate (len c : Nat) (hc : 0 < c) :
    ∀ (k total waits : Nat), total ≤ len → len ≤ total + k * c →
      ∃ rest, tcp_send_loop false len (List.replicate k (IoStep.bytes c))
        total waits = some ⟨len, false, waits, rest⟩ := by
  intro k
  induction k with
  | zero =>
    intro total waits h1 h2
    have htot : total = len := by omega
    subst htot
    exact ⟨[], by simp [tcp_send_loop]⟩
  | succ k ih =>
    intro total waits h1 h2
    by_cases h : len ≤ total
    · have htot : total = len := by omega
      subst htot
      refine ⟨IoStep.bytes c :: List.replicate k (IoStep.bytes c), ?_⟩
      rw [List.replicate_succ]
      simp [tcp_send_loop]
    · obtain ⟨m, rfl⟩ : ∃ m, c = m + 1 := ⟨c - 1, by omega⟩
      rw [List.replicate_succ]
      simp only [tcp_send_loop]
      rw [if_neg h]
      simp only [Bool.false_eq_true, if_false]
      have hmul : (k + 1) * (m + 1) = k * (m + 1) + (m + 1) := by ring
      exact ih _ _ (by omega) (by omega)

/-- C4.  `tcp_send` is all-or-failed: (1) whenever a send returns with
the network-error flag clear, the transmitted total is exactly the
requested length — a partial send is never reported as success; (2) a
would-block condition consumes zero bytes and performs one bounded wait
before retrying; (3) that wait is the 100 ms `tcp_can_send` poll;
(4) a transport that accepts only `c` bytes per call (e.g. `N/2`) still
completes an `N ≤ k·c` byte send with full success after `k` internal
retries. -/
theorem tcp_send_all_or_failed :
    (∀ (ssl : Bool) (steps : List IoStep) (len : Nat) (r : SendResult),
      tcp_send false ssl steps len = some r → r.networkError = false →
      r.total = len) ∧
    (∀ (ssl : Bool) (len : Nat) (rest : List IoStep) (total waits : Nat),
      total < len →
      tcp_send_loop ssl len (IoStep.wouldBlock :: rest) total waits =
        tcp_send_loop ssl len rest total (waits + 1)) ∧
    tcp_can_send_wait_millis = 100 ∧
    (∀ (k c len : Nat), 0 < c → len ≤ k * c →
      ∃ rest, tcp_send false false (List.replicate k (IoStep.bytes c)) len =
        some ⟨len, false, 0, rest⟩) := by
  refine ⟨?_, tcp_send_loop_wouldBlock, rfl, ?_⟩
  · intro ssl steps len r hrun hflag
    simp only [tcp_send, Bool.false_eq_true, if_false] at hrun
    exact tcp_send_loop_total ssl len steps 0 0 r (Nat.zero_le len) hrun hflag
  · intro k c len hc hlen
    obtain ⟨rest, hrest⟩ := tcp_send_loop_replicate len c hc k 0 0
      (Nat.zero_le len) (by omega)
    exact ⟨rest, by simp only [tcp_send, Bool.false_eq_true, if_false]; exact hrest⟩

/-- Witness for C4: 4 bytes through a transport accepting 2 per call. -/
theorem tcp_send_all_or_failed_witness :
    ∃ rest, tcp_send false false (List.replicate 2 (IoStep.bytes 2)) 4 =
      some ⟨4, false, 0, rest⟩ :=
  tcp_send_all_or_failed.2.2.2 2 2 4 (by decide) (by decide)

/-- C5 counterexample.  A zero-byte read on a plaintext socket aborts
the receive with `NULL` (a fatal receive failure, `ok = false`), but the
process-wide network-error flag is NOT set — the `rcvd == 0` branch of
`tcp_recv` returns without touching `g_network_error`, unlike every
other fatal branch: the claim that every fatal failure sets the flag is
false. -/
theorem zero_read_no_flag_counterexample :
    tcp_recv false false false false false [IoStep.bytes 0] 5 =
      some ⟨false, 0, false, []⟩ := by
  decide

/-- C5 amended.  On a plaintext socket a zero-byte read signals peer
disconnection and is fatal to the receive (returns `NULL`), but it
leaves the network-error flag clear; a fatal transport error in the
receive path or in the send path does set the flag, and `send()`
returning 0 on the raw socket is treated as such a fatal error. -/
theorem fatal_failure_flag_amended :
    (∀ (pending : Bool) (rest : List IoStep) (received len : Nat), 0 < len →
      tcp_recv_loop false pending false false (IoStep.bytes 0 :: rest)
        received len = some ⟨false, received, false, rest⟩) ∧
    (∀ (ssl pending : Bool) (rest : List IoStep) (received len : Nat),
      0 < len →
      tcp_recv_loop ssl pending false false (IoStep.fatal :: rest)
        received len = some ⟨false, received, true, rest⟩) ∧
    (∀ (ssl : Bool) (len : Nat) (rest : List IoStep) (total waits : Nat),
      total < len →
      tcp_send_loop ssl len (IoStep.fatal :: rest) total waits =
        some ⟨total, true, waits, rest⟩) ∧
    (∀ (len : Nat) (rest : List IoStep) (total waits : Nat), total < len →
      tcp_send_loop false len (IoStep.bytes 0 :: rest) total waits =
        some ⟨total, true, waits, rest⟩) := by
  refine ⟨?_, ?_, ?_, ?_⟩
  · intro pending rest received len hlen
    simp [tcp_recv_loop, hlen.ne']
  · intro ssl pending rest received len hlen
    cases ssl <;> simp [tcp_recv_loop, hlen.ne']
  · intro ssl len rest total waits hlt
    cases ssl <;> simp [tcp_send_loop, show ¬ len ≤ total by omega]
  · intro len rest total waits hlt
    simp [tcp_send_loop, show ¬ len ≤ total by omega]

/-- Witness for C5 (amended): each part at a concrete trace. -/
theorem fatal_failure_flag_amended_witness :
    tcp_recv_loop false false false false [IoStep.bytes 0] 0 5 =
      some ⟨false, 0, false, []⟩ ∧
    tcp_recv_loop false false false false [IoStep.fatal] 0 5 =
      some ⟨false, 0, true, []⟩ ∧
    tcp_send_loop false 5 [IoStep.fatal] 0 0 = some ⟨0, true, 0, []⟩ :=
  ⟨fatal_failure_flag_amended.1 false [] 0 5 (by decide),
   fatal_failure_flag_amended.2.1 false false [] 0 5 (by decide),
   fatal_failure_flag_amended.2.2.1 false 5 [] 0 0 (by decide)⟩

/-- C6.  Once the network-error flag is set: every `tcp_send` returns at
once having transmitted nothing, attempted no transport operation (the
whole trace is left unconsumed) and left the flag set; every `tcp_recv`
likewise fails immediately with the trace unconsumed and the flag still
set; and the explicit reconnect (modelled from the spec, the reset being
owned by the application) clears the flag. -/
theorem network_error_short_circuit :
    (∀ (ssl : Bool) (steps : List IoStep) (len : Nat),
      tcp_send true ssl steps len = some ⟨0, true, 0, steps⟩) ∧
    (∀ (ssl pending runUi exitML : Bool) (steps : List IoStep) (len : Nat),
      tcp_recv true ssl pending runUi exitML steps len =
        some ⟨false, 0, true, steps⟩) ∧
    reconnect_clears_network_error true = false := by
  exact ⟨fun ssl steps len => by simp [tcp_send],
    fun ssl pending runUi exitML steps len => by simp [tcp_recv], rfl⟩

/-- C7 counterexample.  Starting from a fresh state, a connect to "h"
that resolves successfully but fails at the TCP `connect()` step never
records "h" as the last server name; the immediately following connect
to the same "h" therefore resolves again — two consecutive connect calls
with the same hostname string, resolution performed twice. -/
theorem reresolve_after_failed_connect_counterexample :
    (tcp_connect (fun _ => some 7) true false ⟨none, none⟩ "h").didResolve =
      true ∧
    (tcp_connect (fun _ => some 7) true false ⟨none, none⟩ "h").ok = false ∧
    (tcp_connect (fun _ => some 7) true true
      (tcp_connect (fun _ => some 7) true false ⟨none, none⟩ "h").state
      "h").didResolve = true :=
  ⟨rfl, rfl, rfl⟩

/-- After a successful `tcp_connect`, the cached address is non-NULL and
the last server name is the connected hostname. -/
theorem tcp_connect_ok_state (resolver : String → Option Nat) (so co : Bool)
    (st : ConnState) (server : String)
    (hok : (tcp_connect resolver so co st server).ok = true) :
    ∃ x, (tcp_connect resolver so co st server).state = ⟨some x, some server⟩ := by
  by_cases hr : tcp_connect_resolve_hostname st server
  · simp only [tcp_connect, if_pos hr] at hok ⊢
    cases hres : resolver server with
    | none => rw [hres] at hok; simp at hok
    | some a =>
      cases so with
      | false => rw [hres] at hok; simp at hok
      | true =>
        cases co with
        | false => rw [hres] at hok; simp at hok
        | true => exact ⟨some a, rfl⟩
  · simp only [tcp_connect, if_neg hr] at hok ⊢
    have hsome : ∃ x, st.serverAddress = some x := by
      rcases hx : st.serverAddress with _ | x
      · exact absurd (by simp [tcp_connect_resolve_hostname, hx]) hr
      · exact ⟨x, rfl⟩
    obtain ⟨x, hx⟩ := hsome
    cases so with
    | false => simp at hok
    | true =>
      cases co with
      | false => simp at hok
      | true => exact ⟨x, by simp [hx]⟩

/-- C7 amended.  After a SUCCESSFUL connect to `server`, an immediately
following connect to the same hostname performs no resolution and reuses
the cached address unchanged, whatever its own socket/connect outcome;
a following connect to a different hostname resolves again, and on
resolver success the cached address is replaced by the new one.  (The
counterexample forces the success qualifier: a connect that fails after
resolving does not record the hostname, so the next connect to the same
name resolves again.) -/
theorem hostname_resolution_cache (resolver : String → Option Nat)
    (so1 co1 so2 co2 : Bool) (st : ConnState) (server server2 : String)
    (hok : (tcp_connect resolver so1 co1 st server).ok = true) :
    ((tcp_connect resolver so2 co2 (tcp_connect resolver so1 co1 st server).state
        server).didResolve = false ∧
      (tcp_connect resolver so2 co2 (tcp_connect resolver so1 co1 st server).state
        server).state.serverAddress =
        (tcp_connect resolver so1 co1 st server).state.serverAddress) ∧
    (server2 ≠ server →
      (tcp_connect resolver so2 co2 (tcp_connect resolver so1 co1 st server).state
        server2).didResolve = true ∧
      (∀ a, resolver server2 = some a →
        (tcp_connect resolver so2 co2 (tcp_connect resolver so1 co1 st server).state
          server2).state.serverAddress = some (some a))) := by
  obtain ⟨x, hstate⟩ := tcp_connect_ok_state resolver so1 co1 st server hok
  rw [hstate]
  have hres : tcp_connect_resolve_hostname ⟨some x, some server⟩ server = false := by
    simp [tcp_connect_resolve_hostname]
  constructor
  · constructor
    · cases so2 <;> cases co2 <;> simp [tcp_connect, hres]
    · cases so2 <;> cases co2 <;> simp [tcp_connect, hres]
  · intro hne
    have hres2 : tcp_connect_resolve_hostname ⟨some x, some server⟩ server2 = true := by
      simp [tcp_connect_resolve_hostname, bne_iff_ne]
      exact fun h => hne h.symm
    constructor
    · cases hr : resolver server2 <;> cases so2 <;> cases co2 <;>
        simp [tcp_connect, hres2, hr]
    · intro a ha
      cases so2 <;> cases co2 <;> simp [tcp_connect, hres2, ha]

/-- Witness for C7 (amended): after a successful connect to "h", the
next connect to "h" does not resolve. -/
theorem hostname_resolution_cache_witness :
    (tcp_connect (fun _ => some 7) true true
      (tcp_connect (fun _ => some 7) true true ⟨none, none⟩ "h").state
      "h").didResolve = false :=
  (hostname_resolution_cache (fun _ => some 7) true true true true
    ⟨none, none⟩ ("h") ("g") rfl).1.1

/-- C10.  `tcp_is_connected` returns True exactly when the `getpeername`
query fails (returns nonzero) and False when it succeeds: it is the
negation of the has-a-connected-peer test. -/
theorem tcp_is_connected_inverted (r : Int) :
    tcp_is_connected r = !peer_query_succeeded r ∧
    (tcp_is_connected r = true ↔ r ≠ 0) := by
  by_cases h : r = 0 <;> simp [tcp_is_connected, peer_query_succeeded, h]

end RdesktopTcp
